import Mathlib

/-!
Verification of the Reddit lead tracker pipeline (`reddit_lead_tracker_ui.py`).

The development shallowly embeds the pipeline core of the source file:
the multi-strategy post collector (`collectPosts`, lines 182-217), the
per-post qualification procedure (`processPost`, lines 223-335), score
parsing (`parseScore`, lines 288-295), the run driver
(`trackLeads`, lines 86-346) and the search-button input validation
(`searchButtonHandler`, lines 666-696).

External collaborators are modelled as inputs: the Reddit API is a record
of underlying per-strategy listings (a query with limit `n` returns the
first `n` entries), and the scoring agent is a function from the prompt
to an outcome (an exception, or a response with optional content).
-/

namespace RLT

/-- Substring helper: does the second list start with the first? -/
def listStarts : List Char → List Char → Bool
  | [], _ => true
  | _ :: _, [] => false
  | a :: as, b :: bs => a == b && listStarts as bs

/-- Substring test on character lists: Python `needle in hay`. -/
def listContainsSub (needle : List Char) : List Char → Bool
  | [] => needle.isEmpty
  | c :: t => listStarts needle (c :: t) || listContainsSub needle t

/-- Python substring test `needle in hay` on strings. -/
def strContains (hay needle : String) : Bool :=
  listContainsSub needle.toList hay.toList

/-- Python `s.lower()` (character-wise lowercasing). -/
def strLower (s : String) : String :=
  String.mk (s.toList.map Char.toLower)

/-- Python slicing `s[:n]` (by characters). -/
def strTake (s : String) (n : Nat) : String :=
  String.mk (s.toList.take n)

/-- Python `text.split('\n')`: split at every newline, keeping empty
pieces (so the result is always nonempty). -/
def splitLinesCh : List Char → List (List Char)
  | [] => [[]]
  | c :: rest =>
    match splitLinesCh rest with
    | [] => [[]]
    | h :: t => if c = '\n' then [] :: h :: t else (c :: h) :: t

/-- A Reddit submission as the pipeline reads it.  Fields the code accesses
without a guard (`title`, `created_utc`, `permalink`) are `Option`s whose
`none` models a missing attribute (a malformed item whose access raises);
`selftext` is guarded by `hasattr` in the code and `author` by a
truthiness test, so for them `none` is a normal state. -/
structure Post where
  id : Nat
  title : Option String
  selftext : Option String
  author : Option String
  created_utc : Option Nat
  score : Int
  num_comments : Nat
  permalink : Option String
deriving DecidableEq

/-- One per-strategy Reddit API: the underlying ordering of each listing
(`new` / `top` / `hot`); a query with limit `n` returns the first `n`
entries.  The `Fails` flags model a strategy fetch raising (caught by the
per-strategy `try` in the code). -/
structure SubredditAPI where
  newListing : List Post
  topListing : List Post
  hotListing : List Post
  newFails : Bool
  topFails : Bool
  hotFails : Bool
deriving DecidableEq

/-- Lines 199-201 / 210-212: build the set of accumulated ids and append
only the batch posts whose id is not already present. -/
def dedupAppend (acc batch : List Post) : List Post :=
  acc ++ batch.filter (fun p => !((acc.map Post.id).contains p.id))

/-- Strategy 2 (lines 195-204): fetch up to `min(limit - accumulated, 1000)`
top posts and append the unique remainder; a fetch error contributes
nothing. -/
def collectTopStage (api : SubredditAPI) (limit : Nat) (acc : List Post) :
    List Post :=
  if api.topFails then acc
  else dedupAppend acc (api.topListing.take (min (limit - acc.length) 1000))

/-- Strategy 3 (lines 206-215): same for the hot listing. -/
def collectHotStage (api : SubredditAPI) (limit : Nat) (acc : List Post) :
    List Post :=
  if api.hotFails then acc
  else dedupAppend acc (api.hotListing.take (min (limit - acc.length) 1000))

/-- The post-collection procedure, lines 182-217 of the source: fetch
`new` up to `min(limit, 1000)`; when more than 1000 posts are requested,
also fetch `top` and (when still short) `hot`, each time keeping only
posts whose id is not already accumulated; finally truncate to `limit`. -/
def collectPosts (api : SubredditAPI) (limit : Nat) : List Post :=
  let acc := if api.newFails then [] else api.newListing.take (min limit 1000)
  let acc2 :=
    if 1000 < limit then
      let afterTop := collectTopStage api limit acc
      if afterTop.length < limit then collectHotStage api limit afterTop
      else afterTop
    else acc
  acc2.take limit

/-- The `post_info` dictionary (ExploredRecord), lines 229-241.  The keys
`ai_score` / `ai_analysis` are added only on some code paths, hence
`Option`. -/
structure PostInfo where
  title : String
  url : String
  author : String
  subreddit : String
  date : String
  score : Int
  num_comments : Nat
  content_preview : String
  matched_keywords : Bool
  ai_analyzed : Bool
  is_lead : Bool
  ai_score : Option Nat
  ai_analysis : Option String
deriving DecidableEq, Inhabited

/-- The `lead_data` dictionary, lines 304-314 / 318-328. -/
structure Lead where
  username : String
  post_title : String
  post_url : String
  post_content : String
  subreddit : String
  relevance_score : Nat
  identified_needs : List String
  post_date : String
  ai_analysis : String
deriving DecidableEq, Inhabited

/-- The `stats` counters, line 101. -/
structure Stats where
  total_posts : Nat
  posts_analyzed : Nat
  leads_found : Nat
deriving DecidableEq

/-- Accumulated run result: `all_leads`, `all_posts_explored`, `stats`. -/
structure RunState where
  leads : List Lead
  explored : List PostInfo
  stats : Stats
deriving DecidableEq

/-- Outcome of one `lead_tracker_agent.run` call: either the call raises
(`failure`, line 316) or it returns a response whose `content` may be
absent or any string (the code then tests `response and response.content`,
line 285). -/
inductive ScorerOutcome where
  | failure
  | success (content : Option String)
deriving DecidableEq

/-- Models `datetime.fromtimestamp(t).strftime("%Y-%m-%d")` (line 234);
the rendered text itself is never inspected by the pipeline. -/
def formatDate (t : Nat) : String :=
  toString t

/-- Lowercased body: `str(post.selftext).lower() if hasattr(post, 'selftext') else ""`
(line 226). -/
def lowerContent (post : Post) : String :=
  match post.selftext with
  | some s => strLower s
  | none => ""

/-- The keyword predicate used at lines 244, 311 and 325:
`keyword.lower() in title or keyword.lower() in content`, where `title`
and `content` are the already-lowercased title and body. -/
def kwMatches (title content kw : String) : Bool :=
  strContains title (strLower kw) || strContains content (strLower kw)

/-- The analysis prompt built at lines 250-279 (f-string interpolations
replaced by concatenation). -/
def mkPrompt (rawTitle : String) (selftext : Option String)
    (subreddit : String) (author : Option String) : String :=
  "\nANALYZE THIS POST FOR B2B LEAD QUALIFICATION:\n\n**Post Details:**\nTitle: "
    ++ rawTitle
    ++ "\nContent: "
    ++ (match selftext with
        | some s => strTake s 600
        | none => "No content")
    ++ "\nSubreddit: r/"
    ++ subreddit
    ++ "\nAuthor: u/"
    ++ author.getD "N/A"
    ++ "\n\n**Your Task:**\nDetermine if this is a potential B2B customer for business intelligence/analytics software.\n\n**Analysis Required:**\n1. Is this a BUSINESS need or personal/student project?\n2. Are they a decision-maker or influencer in their organization?\n3. What specific BI/analytics pain points do they have?\n4. Do they mention budget, team size, or enterprise requirements?\n5. What red flags exist (if any)?\n\n**Provide Output in This Format:**\nScore: [1-10 based on scoring guide]\nBusiness Context: [Is this business or personal? Evidence?]\nDecision Authority: [Likely decision-maker? Why/why not?]\nPain Points: [Specific BI/analytics challenges mentioned]\nBudget Indicators: [Any mention of budget, paid tools, or willingness to invest?]\nRed Flags: [Student/hobby/tutorial-seeking indicators?]\nRecommendation: [Should we pursue this lead? Why?]\n\nBe critical and specific. We only want real business opportunities.\n"

/-- Value of Python `int(s)` on the digit characters kept by
`filter(str.isdigit, score_line)` (line 293). -/
def digitsVal (ds : List Char) : Nat :=
  ds.foldl (fun n c => 10 * n + (c.toNat - 48)) 0

/-- Score extraction, lines 288-295: start from the default `min_score`;
if the response contains `"Score:"`, take the first line containing it and
parse the integer formed by its digit characters; any failure inside the
`try` (no such line, no digits) leaves the default. -/
def parseScore (text : String) (minScore : Nat) : Nat :=
  if strContains text "Score:" then
    match (splitLinesCh text.toList).find? (fun line => listContainsSub "Score:".toList line) with
    | some line =>
      let ds := line.filter Char.isDigit
      if ds.isEmpty then minScore else digitsVal ds
    | none => minScore
  else minScore

/-- Result of processing one post (lines 223-335): the appended explored
record and lead, if any (`none` record = the per-item `try` raised and the
post was skipped), the increments applied to the `posts_analyzed` and
`leads_found` counters, and the list of prompts sent to the scoring
agent. -/
structure ItemResult where
  record : Option PostInfo
  lead : Option Lead
  analyzedInc : Nat
  leadsInc : Nat
  calls : List String
deriving DecidableEq

/-- The explored-record shell built at lines 229-241 (all flags false,
no score keys yet). -/
def exploredShell (subreddit rawTitle : String) (created : Nat)
    (permalink : String) (post : Post) : PostInfo :=
  { title := rawTitle
    url := "https://reddit.com" ++ permalink
    author := post.author.getD "N/A"
    subreddit := subreddit
    date := formatDate created
    score := post.score
    num_comments := post.num_comments
    content_preview := strTake (post.selftext.getD "") 200
    matched_keywords := false
    ai_analyzed := false
    is_lead := false
    ai_score := none
    ai_analysis := none }

/-- The `lead_data` dictionary as built at lines 304-314 and 318-328 (the
two sites differ only in the score and analysis text passed in). -/
def leadData (keywords : List String) (subreddit rawTitle : String)
    (created : Nat) (permalink : String) (post : Post)
    (score : Nat) (aiText : String) : Lead :=
  { username := post.author.getD "N/A"
    post_title := rawTitle
    post_url := "https://reddit.com" ++ permalink
    post_content := strTake (post.selftext.getD "") 300
    subreddit := subreddit
    relevance_score := score
    identified_needs :=
      keywords.filter (fun kw => kwMatches (strLower rawTitle) (lowerContent post) kw)
    post_date := formatDate created
    ai_analysis := aiText }

/-- Lines 286-315: a truthy response was obtained; parse the score, record
it on the explored record, and emit a lead exactly when the score reaches
`min_score`. -/
def scoreResponse (keywords : List String) (minScore : Nat)
    (subreddit rawTitle : String) (created : Nat) (permalink : String)
    (post : Post) (pi2 : PostInfo) (prompt rtext : String) : ItemResult :=
  let score := parseScore rtext minScore
  let pi3 := { pi2 with ai_score := some score, ai_analysis := some (strTake rtext 400) }
  if minScore ≤ score then
    { record := some { pi3 with is_lead := true }
      lead := some (leadData keywords subreddit rawTitle created permalink post
        score (strTake rtext 400))
      analyzedInc := 1
      leadsInc := 1
      calls := [prompt] }
  else
    { record := some pi3, lead := none, analyzedInc := 1, leadsInc := 0,
      calls := [prompt] }

/-- Lines 281-329: mark the record analyzed and invoke the agent.  An
exception (`failure`) falls back to an unconditional keyword lead at
`min_score` (lines 316-329); a response with falsy content is dropped
without a score (line 285); otherwise the response is scored. -/
def runScorer (keywords : List String) (minScore : Nat)
    (scorer : String → ScorerOutcome) (subreddit rawTitle : String)
    (created : Nat) (permalink : String) (post : Post) (pi1 : PostInfo) :
    ItemResult :=
  let prompt := mkPrompt rawTitle post.selftext subreddit post.author
  match scorer prompt with
  | ScorerOutcome.failure =>
    { record := some { pi1 with ai_analyzed := true }
      lead := some (leadData keywords subreddit rawTitle created permalink post
        minScore "Keyword match - agent analysis unavailable")
      analyzedInc := 1
      leadsInc := 0
      calls := [prompt] }
  | ScorerOutcome.success contentOpt =>
    let pi2 := { pi1 with ai_analyzed := true }
    match contentOpt with
    | none =>
      { record := some pi2, lead := none, analyzedInc := 1, leadsInc := 0,
        calls := [prompt] }
    | some rtext =>
      if rtext = "" then
        { record := some pi2, lead := none, analyzedInc := 1, leadsInc := 0,
          calls := [prompt] }
      else
        scoreResponse keywords minScore subreddit rawTitle created permalink
          post pi2 prompt rtext

/-- Per-post qualification, lines 223-335 of the source, in code order:
build the explored record; keyword-filter; on a match increment the
analyzed counter and run the scorer.  A missing `title`, `created_utc` or
`permalink` attribute raises inside the per-item `try` and skips the
post. -/
def processPost (keywords : List String) (minScore : Nat)
    (scorer : String → ScorerOutcome) (subreddit : String) (post : Post) :
    ItemResult :=
  match post.title, post.created_utc, post.permalink with
  | some rawTitle, some created, some permalink =>
    let matchedKw :=
      keywords.any (fun kw => kwMatches (strLower rawTitle) (lowerContent post) kw)
    let pi1 :=
      { exploredShell subreddit rawTitle created permalink post with
        matched_keywords := matchedKw }
    if matchedKw then
      runScorer keywords minScore scorer subreddit rawTitle created permalink post pi1
    else
      { record := some pi1, lead := none, analyzedInc := 0, leadsInc := 0, calls := [] }
  | _, _, _ =>
    { record := none, lead := none, analyzedInc := 0, leadsInc := 0, calls := [] }

/-- Folding one post into the accumulated run result: append the lead and
record (when produced) and apply the counter increments. -/
def stepPost (keywords : List String) (minScore : Nat)
    (scorer : String → ScorerOutcome) (subreddit : String)
    (s : RunState) (post : Post) : RunState :=
  let r := processPost keywords minScore scorer subreddit post
  { leads := s.leads ++ r.lead.toList
    explored := s.explored ++ r.record.toList
    stats := { s.stats with
      posts_analyzed := s.stats.posts_analyzed + r.analyzedInc
      leads_found := s.stats.leads_found + r.leadsInc } }

/-- One subreddit of the run, lines 164-341: collect its posts, add their
count to `total_posts` (line 218, before per-item processing), then
process each post in order. -/
def stepSub (env : String → SubredditAPI) (scorer : String → ScorerOutcome)
    (keywords : List String) (limit minScore : Nat)
    (s : RunState) (name : String) : RunState :=
  let posts := collectPosts (env name) limit
  let s1 : RunState :=
    { s with stats := { s.stats with total_posts := s.stats.total_posts + posts.length } }
  posts.foldl (stepPost keywords minScore scorer name) s1

/-- The whole run of `track_leads_function`, lines 86-346: fold the
per-subreddit step over the caller-supplied subreddit list, starting from
empty accumulators and zero counters. -/
def trackLeads (env : String → SubredditAPI) (scorer : String → ScorerOutcome)
    (subreddits keywords : List String) (limit minScore : Nat) : RunState :=
  subreddits.foldl (stepSub env scorer keywords limit minScore)
    { leads := [], explored := [],
      stats := { total_posts := 0, posts_analyzed := 0, leads_found := 0 } }

/-- The credential inputs gathered by the sidebar (lines 358-364). -/
structure Credentials where
  openai_api_key : String
  reddit_client_id : String
  reddit_client_secret : String
  reddit_username : String
  reddit_password : String
deriving DecidableEq

/-- The `all([...])` truthiness check at line 668: every credential string
non-empty. -/
def credsComplete (c : Credentials) : Bool :=
  !(c.openai_api_key == "") && !(c.reddit_client_id == "")
    && !(c.reddit_client_secret == "") && !(c.reddit_username == "")
    && !(c.reddit_password == "")

/-- The search-button handler, lines 666-696: validate credentials, then
the subreddit list, then the keyword list, reporting an error before the
run starts; only with all inputs present is `track_leads_function`
invoked. -/
def searchButtonHandler (creds : Credentials) (subreddits keywords : List String)
    (limit minScore : Nat) (env : String → SubredditAPI)
    (scorer : String → ScorerOutcome) : Except String RunState :=
  if !(credsComplete creds) then
    Except.error "Please fill in all API credentials!"
  else if subreddits.length == 0 then
    Except.error "Please enter at least one subreddit!"
  else if keywords.length == 0 then
    Except.error "Please enter at least one keyword!"
  else
    Except.ok (trackLeads env scorer subreddits keywords limit minScore)

/-- Number of explored records flagged `is_lead` (the spec's
`count(explored where is_lead)`). -/
def countLead (l : List PostInfo) : Nat :=
  (l.filter (fun p => p.is_lead)).length

/-- Number of explored records flagged `matched_keywords`. -/
def countMatched (l : List PostInfo) : Nat :=
  (l.filter (fun p => p.matched_keywords)).length

/-- A well-formed example submission whose title matches the keyword
"bi dashboard". -/
def samplePost : Post :=
  { id := 1, title := some "Need a BI Dashboard",
    selftext := some "our company needs analytics", author := some "alice",
    created_utc := some 100, score := 5, num_comments := 2,
    permalink := some "/r/x/1" }

/-- A malformed submission: the `title` attribute is missing, so per-item
processing raises. -/
def malformedPost : Post :=
  { id := 2, title := none, selftext := none, author := none,
    created_utc := some 0, score := 0, num_comments := 0,
    permalink := some "/p" }

/-- Environment in which every subreddit serves the single matching
sample post. -/
def envSample : String → SubredditAPI := fun _ =>
  { newListing := [samplePost], topListing := [], hotListing := [],
    newFails := false, topFails := false, hotFails := false }

/-- Environment in which every subreddit serves the single malformed
post. -/
def envMalformed : String → SubredditAPI := fun _ =>
  { newListing := [malformedPost], topListing := [], hotListing := [],
    newFails := false, topFails := false, hotFails := false }

/-- Environment with no posts anywhere. -/
def envEmpty : String → SubredditAPI := fun _ =>
  { newListing := [], topListing := [], hotListing := [],
    newFails := false, topFails := false, hotFails := false }

/-- A scorer that always answers with a parsable score of 9. -/
def scorerNine : String → ScorerOutcome := fun _ =>
  ScorerOutcome.success (some "Score: 9 strong business signal")

/-- A scorer whose invocation always raises. -/
def scorerDown : String → ScorerOutcome := fun _ => ScorerOutcome.failure

/-- A scorer that succeeds but with empty response content. -/
def scorerBlank : String → ScorerOutcome := fun _ =>
  ScorerOutcome.success (some "")

/-- Two distinct posts sharing the identifier 5. -/
def dupPostA : Post :=
  { id := 5, title := some "first", selftext := none, author := none,
    created_utc := some 0, score := 0, num_comments := 0,
    permalink := some "/a" }

/-- Second post with the duplicated identifier 5. -/
def dupPostB : Post :=
  { id := 5, title := some "second", selftext := none, author := none,
    created_utc := some 0, score := 0, num_comments := 0,
    permalink := some "/b" }

/-- A source whose `new` listing itself repeats an identifier. -/
def apiDupNew : SubredditAPI :=
  { newListing := [dupPostA, dupPostB], topListing := [], hotListing := [],
    newFails := false, topFails := false, hotFails := false }

/-- Post with numeric identifier `i`, for the collector-size scenarios. -/
def mkNatPost (i : Nat) : Post :=
  { id := i, title := some "t", selftext := none, author := none,
    created_utc := some 0, score := 0, num_comments := 0,
    permalink := some "/p" }

/-- 1000 unique posts served by the `new` listing. -/
def c6NewListing : List Post := (List.range 1000).map mkNatPost

/-- A top listing of 800 posts, 300 of which duplicate the new posts, with
the duplicates occupying the first 300 positions. -/
def c6TopEarlyDup : List Post :=
  ((List.range 300) ++ (List.range' 1000 500)).map mkNatPost

/-- A top listing of 800 posts, 300 of which duplicate the new posts, with
the duplicates occupying the last 300 positions. -/
def c6TopLateDup : List Post :=
  ((List.range' 1000 500) ++ (List.range 300)).map mkNatPost

/-- The cap=1500 scenario source whose top duplicates come first. -/
def c6ApiEarlyDup : SubredditAPI :=
  { newListing := c6NewListing, topListing := c6TopEarlyDup, hotListing := [],
    newFails := false, topFails := false, hotFails := false }

/-- The cap=1500 scenario source whose top duplicates come last. -/
def c6ApiLateDup : SubredditAPI :=
  { newListing := c6NewListing, topListing := c6TopLateDup, hotListing := [],
    newFails := false, topFails := false, hotFails := false }

/-- Credentials whose OpenAI key was left empty. -/
def credsNoKey : Credentials :=
  { openai_api_key := "", reddit_client_id := "id",
    reddit_client_secret := "sec", reddit_username := "user",
    reddit_password := "pw" }

/-- A generic fold-invariant principle used to lift per-item facts to
whole runs. -/
theorem foldl_preserve {α β : Type} (f : β → α → β) (P : β → Prop)
    (hP : ∀ s a, P s → P (f s a)) : ∀ (l : List α) (s : β), P s → P (l.foldl f s)
  | [], _, h => h
  | a :: t, s, h => foldl_preserve f P hP t (f s a) (hP s a h)

/-- A list on which `any p` holds has a nonempty `filter p`. -/
theorem filter_ne_nil_of_any {α : Type} (p : α → Bool) (l : List α)
    (h : l.any p = true) : l.filter p ≠ [] := by
  intro hnil
  rw [List.any_eq_true] at h
  obtain ⟨x, hx, hpx⟩ := h
  have hmem : x ∈ l.filter p := List.mem_filter.mpr ⟨hx, hpx⟩
  rw [hnil] at hmem
  exact List.not_mem_nil x hmem

/-- `countLead` of a one-record list. -/
theorem countLead_singleton (pi : PostInfo) :
    countLead [pi] = if pi.is_lead then 1 else 0 := by
  by_cases h : pi.is_lead <;> simp [countLead, h]

/-- `countMatched` of a one-record list. -/
theorem countMatched_singleton (pi : PostInfo) :
    countMatched [pi] = if pi.matched_keywords then 1 else 0 := by
  by_cases h : pi.matched_keywords <;> simp [countMatched, h]

/-- Behaviour of the truthy-response scoring step (`scoreResponse`), for
any incoming record not yet flagged as a lead: exactly when the parsed
score reaches `min_score` a lead is emitted, the record is flagged, and
the leads counter bumped; the lead carries the threshold-satisfying score
and the keyword-filter needs list. -/
theorem scoreResponse_spec (keywords : List String) (minScore : Nat)
    (subreddit rawTitle : String) (created : Nat) (permalink : String)
    (post : Post) (pi2 : PostInfo) (prompt rtext : String)
    (hld : pi2.is_lead = false) :
    (scoreResponse keywords minScore subreddit rawTitle created permalink post pi2 prompt rtext).analyzedInc = 1 ∧
    (scoreResponse keywords minScore subreddit rawTitle created permalink post pi2 prompt rtext).calls = [prompt] ∧
    (∃ pi3, (scoreResponse keywords minScore subreddit rawTitle created permalink post pi2 prompt rtext).record = some pi3 ∧
      pi3.matched_keywords = pi2.matched_keywords ∧ pi3.ai_analyzed = pi2.ai_analyzed) ∧
    countLead (scoreResponse keywords minScore subreddit rawTitle created permalink post pi2 prompt rtext).record.toList
      = (scoreResponse keywords minScore subreddit rawTitle created permalink post pi2 prompt rtext).lead.toList.length ∧
    (scoreResponse keywords minScore subreddit rawTitle created permalink post pi2 prompt rtext).leadsInc
      = countLead (scoreResponse keywords minScore subreddit rawTitle created permalink post pi2 prompt rtext).record.toList ∧
    (∀ l, (scoreResponse keywords minScore subreddit rawTitle created permalink post pi2 prompt rtext).lead = some l →
      minScore ≤ l.relevance_score ∧
      l.identified_needs = keywords.filter
        (fun kw => kwMatches (strLower rawTitle) (lowerContent post) kw)) := by
  simp only [scoreResponse]
  by_cases hs : minScore ≤ parseScore rtext minScore
  · rw [if_pos hs]
    refine ⟨rfl, rfl, ⟨_, rfl, rfl, rfl⟩, ?_, ?_, ?_⟩
    · simp [countLead_singleton]
    · simp [countLead_singleton]
    · intro l hl
      cases hl
      exact ⟨hs, rfl⟩
  · rw [if_neg hs]
    refine ⟨rfl, rfl, ⟨_, rfl, rfl, rfl⟩, ?_, ?_, ?_⟩
    · simp [countLead_singleton, hld]
    · simp [countLead_singleton, hld]
    · intro l hl
      cases hl

/-- Behaviour of the agent-invocation step (`runScorer`), for any incoming
record not yet flagged as a lead: exactly one prompt is sent; an analyzed
record is always emitted; every flagged record is matched by an emitted
lead; when the scorer never raises, leads and flagged records correspond
exactly; the `leads_found` bump equals the number of flagged records, and
every emitted lead carries a score at or above `min_score` together with
the keyword-filter needs list. -/
theorem runScorer_spec (keywords : List String) (minScore : Nat)
    (scorer : String → ScorerOutcome) (subreddit rawTitle : String)
    (created : Nat) (permalink : String) (post : Post) (pi1 : PostInfo)
    (hld : pi1.is_lead = false) :
    (runScorer keywords minScore scorer subreddit rawTitle created permalink post pi1).analyzedInc = 1 ∧
    (runScorer keywords minScore scorer subreddit rawTitle created permalink post pi1).calls
      = [mkPrompt rawTitle post.selftext subreddit post.author] ∧
    (∃ pi2, (runScorer keywords minScore scorer subreddit rawTitle created permalink post pi1).record = some pi2 ∧
      pi2.matched_keywords = pi1.matched_keywords ∧ pi2.ai_analyzed = true) ∧
    countLead (runScorer keywords minScore scorer subreddit rawTitle created permalink post pi1).record.toList
      ≤ (runScorer keywords minScore scorer subreddit rawTitle created permalink post pi1).lead.toList.length ∧
    ((∀ q, scorer q ≠ ScorerOutcome.failure) →
      (runScorer keywords minScore scorer subreddit rawTitle created permalink post pi1).lead.toList.length
        = countLead (runScorer keywords minScore scorer subreddit rawTitle created permalink post pi1).record.toList) ∧
    (runScorer keywords minScore scorer subreddit rawTitle created permalink post pi1).leadsInc
      = countLead (runScorer keywords minScore scorer subreddit rawTitle created permalink post pi1).record.toList ∧
    (∀ l, (runScorer keywords minScore scorer subreddit rawTitle created permalink post pi1).lead = some l →
      minScore ≤ l.relevance_score ∧
      l.identified_needs = keywords.filter
        (fun kw => kwMatches (strLower rawTitle) (lowerContent post) kw)) := by
  simp only [runScorer]
  cases hsc : scorer (mkPrompt rawTitle post.selftext subreddit post.author) with
  | failure =>
    refine ⟨rfl, rfl, ⟨_, rfl, rfl, rfl⟩, ?_, fun hnf => absurd hsc (hnf _), ?_, ?_⟩
    · simp [countLead_singleton, hld]
    · simp [countLead_singleton, hld]
    · intro l hl
      cases hl
      exact ⟨Nat.le_refl _, rfl⟩
  | success contentOpt =>
    cases contentOpt with
    | none =>
      dsimp only
      refine ⟨rfl, rfl, ⟨_, rfl, rfl, rfl⟩, ?_, ?_, ?_, ?_⟩
      · simp [countLead_singleton, hld]
      · intro _
        simp [countLead_singleton, hld]
      · simp [countLead_singleton, hld]
      · intro l hl
        cases hl
    | some rtext =>
      dsimp only
      by_cases hr : rtext = ""
      · rw [if_pos hr]
        refine ⟨rfl, rfl, ⟨_, rfl, rfl, rfl⟩, ?_, ?_, ?_, ?_⟩
        · simp [countLead_singleton, hld]
        · intro _
          simp [countLead_singleton, hld]
        · simp [countLead_singleton, hld]
        · intro l hl
          cases hl
      · rw [if_neg hr]
        obtain ⟨ha, hc, hrec, hcl, hinc, hlead⟩ :=
          scoreResponse_spec keywords minScore subreddit rawTitle created permalink
            post { pi1 with ai_analyzed := true }
            (mkPrompt rawTitle post.selftext subreddit post.author) rtext hld
        exact ⟨ha, hc, hrec, Nat.le_of_eq hcl, fun _ => hcl.symm, hinc, hlead⟩

set_option maxRecDepth 4000 in
/-- Case summary of the per-post procedure: how each branch relates the
emitted record, the emitted lead, the counter increments and the scorer
calls.  All later pipeline invariants reduce to this lemma. -/
theorem processPost_spec (keywords : List String) (minScore : Nat)
    (scorer : String → ScorerOutcome) (subreddit : String) (post : Post) :
    countLead (processPost keywords minScore scorer subreddit post).record.toList
        ≤ (processPost keywords minScore scorer subreddit post).lead.toList.length ∧
    ((∀ q, scorer q ≠ ScorerOutcome.failure) →
      (processPost keywords minScore scorer subreddit post).lead.toList.length
        = countLead (processPost keywords minScore scorer subreddit post).record.toList) ∧
    (processPost keywords minScore scorer subreddit post).analyzedInc
      = countMatched (processPost keywords minScore scorer subreddit post).record.toList ∧
    (processPost keywords minScore scorer subreddit post).leadsInc
      = countLead (processPost keywords minScore scorer subreddit post).record.toList ∧
    (processPost keywords minScore scorer subreddit post).record.toList.length ≤ 1 ∧
    (∀ l, (processPost keywords minScore scorer subreddit post).lead = some l →
      minScore ≤ l.relevance_score) ∧
    (∀ l, (processPost keywords minScore scorer subreddit post).lead = some l →
      l.identified_needs = keywords.filter
          (fun kw => kwMatches (strLower (post.title.getD "")) (lowerContent post) kw) ∧
        l.identified_needs ≠ []) := by
  obtain ⟨pid, pt, ps, pa, pc, psc, pn, pp⟩ := post
  cases pt with
  | none => simp [processPost, countLead, countMatched]
  | some rawTitle =>
  cases pc with
  | none => simp [processPost, countLead, countMatched]
  | some created =>
  cases pp with
  | none => simp [processPost, countLead, countMatched]
  | some permalink =>
  simp only [processPost]
  by_cases hm : (keywords.any fun kw =>
      kwMatches (strLower rawTitle)
        (lowerContent ⟨pid, some rawTitle, ps, pa, some created, psc, pn, some permalink⟩) kw) = true
  · rw [if_pos hm]
    obtain ⟨ha, hc, ⟨pi2, hrec, hmf, hai⟩, hle, heqf, hinc, hlead⟩ :=
      runScorer_spec keywords minScore scorer subreddit rawTitle created permalink
        ⟨pid, some rawTitle, ps, pa, some created, psc, pn, some permalink⟩
        { exploredShell subreddit rawTitle created permalink
            ⟨pid, some rawTitle, ps, pa, some created, psc, pn, some permalink⟩ with
          matched_keywords := keywords.any fun kw =>
            kwMatches (strLower rawTitle)
              (lowerContent ⟨pid, some rawTitle, ps, pa, some created, psc, pn, some permalink⟩) kw }
        rfl
    have hmtrue : pi2.matched_keywords = true := by rw [hmf]; exact hm
    refine ⟨hle, heqf, ?_, hinc, ?_, ?_, ?_⟩
    · rw [hrec, ha]
      simp [countMatched_singleton, hmtrue]
    · rw [hrec]
      simp
    · intro l hl
      exact (hlead l hl).1
    · intro l hl
      refine ⟨(hlead l hl).2, ?_⟩
      rw [(hlead l hl).2]
      exact filter_ne_nil_of_any _ _ hm
  · rw [if_neg hm]
    refine ⟨?_, ?_, ?_, ?_, by simp, ?_, ?_⟩
    · simp [countLead_singleton, exploredShell]
    · intro _
      simp [countLead_singleton, exploredShell]
    · rw [Bool.not_eq_true] at hm
      simp [countMatched_singleton, hm]
    · simp [countLead_singleton, exploredShell]
    · intro l hl
      cases hl
    · intro l hl
      cases hl

/-- `countLead` is additive over append. -/
theorem countLead_append (l1 l2 : List PostInfo) :
    countLead (l1 ++ l2) = countLead l1 + countLead l2 := by
  simp [countLead, List.filter_append]

/-- `countMatched` is additive over append. -/
theorem countMatched_append (l1 l2 : List PostInfo) :
    countMatched (l1 ++ l2) = countMatched l1 + countMatched l2 := by
  simp [countMatched, List.filter_append]

/-- A nonempty filter forces a positive `any`. -/
theorem any_of_filter_ne_nil {α : Type} (p : α → Bool) (l : List α)
    (h : l.filter p ≠ []) : l.any p = true := by
  cases hf : l.filter p with
  | nil => exact absurd hf h
  | cons a t =>
    have ha : a ∈ l.filter p := by
      rw [hf]
      exact List.mem_cons_self a t
    rw [List.mem_filter] at ha
    exact List.any_eq_true.mpr ⟨a, ha.1, ha.2⟩

/-- Run invariant: flagged explored records never outnumber emitted
leads. -/
theorem trackLeads_count_le (env : String → SubredditAPI)
    (scorer : String → ScorerOutcome) (subreddits keywords : List String)
    (limit minScore : Nat) :
    countLead (trackLeads env scorer subreddits keywords limit minScore).explored
      ≤ (trackLeads env scorer subreddits keywords limit minScore).leads.length := by
  unfold trackLeads
  refine foldl_preserve _ (fun s : RunState => countLead s.explored ≤ s.leads.length)
    ?_ subreddits _ ?_
  · intro s name hs
    unfold stepSub
    refine foldl_preserve _ (fun s : RunState => countLead s.explored ≤ s.leads.length)
      ?_ _ _ hs
    intro s2 post hs2
    unfold stepPost
    dsimp only
    rw [countLead_append, List.length_append]
    exact Nat.add_le_add hs2 (processPost_spec keywords minScore scorer name post).1
  · simp [countLead]

/-- Run invariant: when the scorer never raises, leads and flagged
explored records correspond exactly. -/
theorem trackLeads_count_eq (env : String → SubredditAPI)
    (scorer : String → ScorerOutcome) (subreddits keywords : List String)
    (limit minScore : Nat) (hnf : ∀ q, scorer q ≠ ScorerOutcome.failure) :
    (trackLeads env scorer subreddits keywords limit minScore).leads.length
      = countLead (trackLeads env scorer subreddits keywords limit minScore).explored := by
  unfold trackLeads
  refine foldl_preserve _ (fun s : RunState => s.leads.length = countLead s.explored)
    ?_ subreddits _ ?_
  · intro s name hs
    unfold stepSub
    refine foldl_preserve _ (fun s : RunState => s.leads.length = countLead s.explored)
      ?_ _ _ hs
    intro s2 post hs2
    unfold stepPost
    dsimp only
    rw [countLead_append, List.length_append, hs2,
      (processPost_spec keywords minScore scorer name post).2.1 hnf]
  · simp [countLead]

/-- Run invariant: the analyzed counter equals the number of explored
records flagged as keyword matches. -/
theorem trackLeads_analyzed (env : String → SubredditAPI)
    (scorer : String → ScorerOutcome) (subreddits keywords : List String)
    (limit minScore : Nat) :
    (trackLeads env scorer subreddits keywords limit minScore).stats.posts_analyzed
      = countMatched (trackLeads env scorer subreddits keywords limit minScore).explored := by
  unfold trackLeads
  refine foldl_preserve _
    (fun s : RunState => s.stats.posts_analyzed = countMatched s.explored)
    ?_ subreddits _ ?_
  · intro s name hs
    unfold stepSub
    refine foldl_preserve _
      (fun s : RunState => s.stats.posts_analyzed = countMatched s.explored)
      ?_ _ _ hs
    intro s2 post hs2
    unfold stepPost
    dsimp only
    rw [countMatched_append, hs2,
      (processPost_spec keywords minScore scorer name post).2.2.1]
  · simp [countMatched]

/-- Run invariant: the leads-found counter equals the number of explored
records flagged as leads. -/
theorem trackLeads_found (env : String → SubredditAPI)
    (scorer : String → ScorerOutcome) (subreddits keywords : List String)
    (limit minScore : Nat) :
    (trackLeads env scorer subreddits keywords limit minScore).stats.leads_found
      = countLead (trackLeads env scorer subreddits keywords limit minScore).explored := by
  unfold trackLeads
  refine foldl_preserve _
    (fun s : RunState => s.stats.leads_found = countLead s.explored)
    ?_ subreddits _ ?_
  · intro s name hs
    unfold stepSub
    refine foldl_preserve _
      (fun s : RunState => s.stats.leads_found = countLead s.explored)
      ?_ _ _ hs
    intro s2 post hs2
    unfold stepPost
    dsimp only
    rw [countLead_append, hs2,
      (processPost_spec keywords minScore scorer name post).2.2.2.1]
  · simp [countLead]

/-- Folding the per-post step over a batch adds at most one explored
record per post and never touches `total_posts`. -/
theorem foldPosts_explored (keywords : List String) (minScore : Nat)
    (scorer : String → ScorerOutcome) (name : String) :
    ∀ (posts : List Post) (s : RunState),
      ((posts.foldl (stepPost keywords minScore scorer name) s).explored.length
          ≤ s.explored.length + posts.length) ∧
      ((posts.foldl (stepPost keywords minScore scorer name) s).stats.total_posts
          = s.stats.total_posts)
  | [], s => by simp
  | p :: t, s => by
    rw [List.foldl_cons]
    obtain ⟨ih1, ih2⟩ := foldPosts_explored keywords minScore scorer name t
      (stepPost keywords minScore scorer name s p)
    have hlen : (stepPost keywords minScore scorer name s p).explored.length
        ≤ s.explored.length + 1 := by
      unfold stepPost
      dsimp only
      rw [List.length_append]
      exact Nat.add_le_add_left
        (processPost_spec keywords minScore scorer name p).2.2.2.2.1 _
    constructor
    · refine Nat.le_trans ih1 ?_
      rw [List.length_cons]
      omega
    · rw [ih2]
      rfl

/-- Run invariant: at most `total_posts` explored records are ever
emitted (skipped posts are counted in `total_posts` but produce no
record). -/
theorem trackLeads_explored_le_total (env : String → SubredditAPI)
    (scorer : String → ScorerOutcome) (subreddits keywords : List String)
    (limit minScore : Nat) :
    (trackLeads env scorer subreddits keywords limit minScore).explored.length
      ≤ (trackLeads env scorer subreddits keywords limit minScore).stats.total_posts := by
  unfold trackLeads
  refine foldl_preserve _
    (fun s : RunState => s.explored.length ≤ s.stats.total_posts)
    ?_ subreddits _ ?_
  · intro s name hs
    unfold stepSub
    dsimp only
    obtain ⟨h1, h2⟩ := foldPosts_explored keywords minScore scorer name
      (collectPosts (env name) limit)
      { s with stats :=
          { s.stats with total_posts :=
              s.stats.total_posts + (collectPosts (env name) limit).length } }
    rw [h2]
    refine Nat.le_trans h1 ?_
    exact Nat.add_le_add_right hs _
  · exact Nat.le_refl 0

/-- Every emitted lead satisfies any property established at the
per-post level. -/
theorem trackLeads_leads_pred (env : String → SubredditAPI)
    (scorer : String → ScorerOutcome) (subreddits keywords : List String)
    (limit minScore : Nat) (Q : Lead → Prop)
    (hQ : ∀ name post l,
      (processPost keywords minScore scorer name post).lead = some l → Q l) :
    ∀ l ∈ (trackLeads env scorer subreddits keywords limit minScore).leads, Q l := by
  unfold trackLeads
  refine foldl_preserve _ (fun s : RunState => ∀ l ∈ s.leads, Q l)
    ?_ subreddits _ ?_
  · intro s name hs
    unfold stepSub
    refine foldl_preserve _ (fun s : RunState => ∀ l ∈ s.leads, Q l) ?_ _ _ hs
    intro s2 post hs2 l hl
    unfold stepPost at hl
    dsimp only at hl
    rw [List.mem_append] at hl
    rcases hl with h | h
    · exact hs2 l h
    · apply hQ name post l
      rwa [Option.mem_toList, Option.mem_def] at h
  · intro l hl
    simp at hl

/-- C1 (amended): every Lead produced by normal scoring corresponds to a
record flagged `is_lead`, so the flagged-record count never exceeds the
lead count, and the two are equal exactly on runs in which no scorer
invocation fails; a Lead emitted through the scorer-failure fallback
leaves its ExploredRecord's `is_lead` flag false, so the claimed
unconditional equality does not hold. -/
theorem c1_leads_match_flagged (env : String → SubredditAPI)
    (scorer : String → ScorerOutcome) (subreddits keywords : List String)
    (limit minScore : Nat) :
    countLead (trackLeads env scorer subreddits keywords limit minScore).explored
      ≤ (trackLeads env scorer subreddits keywords limit minScore).leads.length ∧
    ((∀ q, scorer q ≠ ScorerOutcome.failure) →
      (trackLeads env scorer subreddits keywords limit minScore).leads.length
        = countLead (trackLeads env scorer subreddits keywords limit minScore).explored) :=
  ⟨trackLeads_count_le env scorer subreddits keywords limit minScore,
   fun hnf => trackLeads_count_eq env scorer subreddits keywords limit minScore hnf⟩

/-- C1 counterexample: one keyword-matched post whose scorer call raises
yields one emitted Lead but zero explored records with `is_lead = true`,
refuting `len(leads) == count(explored where is_lead)` as stated. -/
theorem c1_counterexample :
    (trackLeads envSample scorerDown ["s"] ["bi dashboard"] 10 7).leads.length = 1 ∧
    countLead (trackLeads envSample scorerDown ["s"] ["bi dashboard"] 10 7).explored = 0 ∧
    (trackLeads envSample scorerDown ["s"] ["bi dashboard"] 10 7).leads.length
      ≠ countLead (trackLeads envSample scorerDown ["s"] ["bi dashboard"] 10 7).explored := by
  decide

/-- C1 witness: on a run whose scorer always succeeds, lead count and
flagged-record count agree. -/
theorem c1_leads_match_flagged_witness :
    (trackLeads envSample scorerNine ["s"] ["bi dashboard"] 10 7).leads.length
      = countLead (trackLeads envSample scorerNine ["s"] ["bi dashboard"] 10 7).explored :=
  (c1_leads_match_flagged envSample scorerNine ["s"] ["bi dashboard"] 10 7).2
    (fun _ h => ScorerOutcome.noConfusion h)

/-- C3 (amended): an item whose per-item processing raises is skipped:
it produces no explored record and is counted in neither the analyzed
counter nor the leads counter (both track the emitted records exactly),
but it has already been counted in `total_posts`, which is incremented at
fetch time for every collected item. -/
theorem c3_skipped_item_counters (env : String → SubredditAPI)
    (scorer : String → ScorerOutcome) (subreddits keywords : List String)
    (limit minScore : Nat) :
    (trackLeads env scorer subreddits keywords limit minScore).stats.posts_analyzed
      = countMatched (trackLeads env scorer subreddits keywords limit minScore).explored ∧
    (trackLeads env scorer subreddits keywords limit minScore).stats.leads_found
      = countLead (trackLeads env scorer subreddits keywords limit minScore).explored ∧
    (trackLeads env scorer subreddits keywords limit minScore).explored.length
      ≤ (trackLeads env scorer subreddits keywords limit minScore).stats.total_posts :=
  ⟨trackLeads_analyzed env scorer subreddits keywords limit minScore,
   trackLeads_found env scorer subreddits keywords limit minScore,
   trackLeads_explored_le_total env scorer subreddits keywords limit minScore⟩

/-- C3 counterexample: a run over one malformed item (missing title
attribute) skips the item — no explored record, no analyzed count, no
lead — yet `total_posts` still counts it, refuting "not counted in any
statistic". -/
theorem c3_counterexample :
    (trackLeads envMalformed scorerNine ["s"] ["bi"] 10 7).stats.total_posts = 1 ∧
    (trackLeads envMalformed scorerNine ["s"] ["bi"] 10 7).explored = [] ∧
    (trackLeads envMalformed scorerNine ["s"] ["bi"] 10 7).stats.posts_analyzed = 0 ∧
    (trackLeads envMalformed scorerNine ["s"] ["bi"] 10 7).stats.leads_found = 0 ∧
    (trackLeads envMalformed scorerNine ["s"] ["bi"] 10 7).leads = [] := by
  decide

/-- C4: every emitted Lead of any run — scored normally, via the
unparseable-response fallback, or via the scorer-failure fallback —
carries a relevance score at or above `min_score`. -/
theorem c4_lead_score_ge_min (env : String → SubredditAPI)
    (scorer : String → ScorerOutcome) (subreddits keywords : List String)
    (limit minScore : Nat) :
    ∀ l ∈ (trackLeads env scorer subreddits keywords limit minScore).leads,
      minScore ≤ l.relevance_score :=
  trackLeads_leads_pred env scorer subreddits keywords limit minScore _
    (fun name post l hl =>
      (processPost_spec keywords minScore scorer name post).2.2.2.2.2.1 l hl)

/-- C4 witness: the lead found in a concrete run satisfies the threshold
bound. -/
theorem c4_lead_score_ge_min_witness :
    7 ≤ ((trackLeads envSample scorerNine ["s"] ["bi dashboard"] 10 7).leads.headI).relevance_score :=
  c4_lead_score_ge_min envSample scorerNine ["s"] ["bi dashboard"] 10 7 _ (by decide)

/-- C10: every emitted Lead has a nonempty matched-keyword list, and the
per-post procedure computes that list with the same lowercase-substring
predicate (over the full keyword list) that gates lead creation, which
must have matched at least one keyword. -/
theorem c10_lead_needs (env : String → SubredditAPI)
    (scorer : String → ScorerOutcome) (subreddits keywords : List String)
    (limit minScore : Nat) :
    (∀ l ∈ (trackLeads env scorer subreddits keywords limit minScore).leads,
      l.identified_needs ≠ []) ∧
    (∀ name post l,
      (processPost keywords minScore scorer name post).lead = some l →
        l.identified_needs = keywords.filter
          (fun kw => kwMatches (strLower (post.title.getD "")) (lowerContent post) kw) ∧
        keywords.any
          (fun kw => kwMatches (strLower (post.title.getD "")) (lowerContent post) kw)
          = true) := by
  constructor
  · exact trackLeads_leads_pred env scorer subreddits keywords limit minScore _
      (fun name post l hl =>
        ((processPost_spec keywords minScore scorer name post).2.2.2.2.2.2 l hl).2)
  · intro name post l hl
    obtain ⟨he, hne⟩ :=
      (processPost_spec keywords minScore scorer name post).2.2.2.2.2.2 l hl
    exact ⟨he, any_of_filter_ne_nil _ _ (he ▸ hne)⟩

/-- C10 witness: the lead of a concrete run carries a nonempty needs
list. -/
theorem c10_lead_needs_witness :
    ((trackLeads envSample scorerNine ["s"] ["bi dashboard"] 10 7).leads.headI).identified_needs ≠ [] :=
  (c10_lead_needs envSample scorerNine ["s"] ["bi dashboard"] 10 7).1 _ (by decide)

/-- C2: a keyword-matched well-formed item whose scorer invocation raises
is accepted as a Lead unconditionally: the emitted lead carries relevance
score exactly `min_score` and the scoring-unavailable rationale; exactly
one scorer call is made (no retry), and the item is neither rejected (a
lead and an explored record are both emitted) nor does the run abort. -/
theorem c2_scorer_failure_fallback (keywords : List String) (minScore : Nat)
    (scorer : String → ScorerOutcome) (subreddit : String) (post : Post)
    (rawTitle : String) (created : Nat) (permalink : String)
    (ht : post.title = some rawTitle) (hc : post.created_utc = some created)
    (hp : post.permalink = some permalink)
    (hm : keywords.any
      (fun kw => kwMatches (strLower rawTitle) (lowerContent post) kw) = true)
    (hf : scorer (mkPrompt rawTitle post.selftext subreddit post.author)
      = ScorerOutcome.failure) :
    (processPost keywords minScore scorer subreddit post).lead
      = some (leadData keywords subreddit rawTitle created permalink post minScore
          "Keyword match - agent analysis unavailable") ∧
    (leadData keywords subreddit rawTitle created permalink post minScore
        "Keyword match - agent analysis unavailable").relevance_score = minScore ∧
    (leadData keywords subreddit rawTitle created permalink post minScore
        "Keyword match - agent analysis unavailable").ai_analysis
      = "Keyword match - agent analysis unavailable" ∧
    (processPost keywords minScore scorer subreddit post).calls
      = [mkPrompt rawTitle post.selftext subreddit post.author] ∧
    (processPost keywords minScore scorer subreddit post).record.isSome = true := by
  obtain ⟨pid, pt, ps, pa, pc, psc, pn, pp⟩ := post
  subst ht hc hp
  simp only [processPost]
  rw [if_pos hm]
  simp only [runScorer]
  rw [hf]
  exact ⟨rfl, rfl, rfl, rfl, rfl⟩

/-- C2 witness: the fallback fires on a concrete matched post with a
raising scorer. -/
theorem c2_scorer_failure_fallback_witness :
    (processPost ["bi dashboard"] 7 scorerDown "s" samplePost).lead
      = some (leadData ["bi dashboard"] "s" "Need a BI Dashboard" 100 "/r/x/1" samplePost 7
          "Keyword match - agent analysis unavailable") ∧
    (leadData ["bi dashboard"] "s" "Need a BI Dashboard" 100 "/r/x/1" samplePost 7
        "Keyword match - agent analysis unavailable").relevance_score = 7 ∧
    (leadData ["bi dashboard"] "s" "Need a BI Dashboard" 100 "/r/x/1" samplePost 7
        "Keyword match - agent analysis unavailable").ai_analysis
      = "Keyword match - agent analysis unavailable" ∧
    (processPost ["bi dashboard"] 7 scorerDown "s" samplePost).calls
      = [mkPrompt "Need a BI Dashboard" samplePost.selftext "s" samplePost.author] ∧
    (processPost ["bi dashboard"] 7 scorerDown "s" samplePost).record.isSome = true :=
  c2_scorer_failure_fallback ["bi dashboard"] 7 scorerDown "s" samplePost
    "Need a BI Dashboard" 100 "/r/x/1" rfl rfl rfl (by decide) rfl

/-- C9: when the scorer call succeeds on a keyword-matched well-formed
item but the response content is absent or empty, the explored record is
marked analyzed with no score recorded and without the lead flag, and no
Lead is emitted — for every `min_score`. -/
theorem c9_empty_response (keywords : List String) (minScore : Nat)
    (scorer : String → ScorerOutcome) (subreddit : String) (post : Post)
    (rawTitle : String) (created : Nat) (permalink : String)
    (contentOpt : Option String)
    (ht : post.title = some rawTitle) (hc : post.created_utc = some created)
    (hp : post.permalink = some permalink)
    (hm : keywords.any
      (fun kw => kwMatches (strLower rawTitle) (lowerContent post) kw) = true)
    (hs : scorer (mkPrompt rawTitle post.selftext subreddit post.author)
      = ScorerOutcome.success contentOpt)
    (he : contentOpt = none ∨ contentOpt = some "") :
    (∃ pi, (processPost keywords minScore scorer subreddit post).record = some pi ∧
      pi.ai_analyzed = true ∧ pi.is_lead = false ∧ pi.ai_score = none ∧
      pi.matched_keywords = true) ∧
    (processPost keywords minScore scorer subreddit post).lead = none ∧
    (processPost keywords minScore scorer subreddit post).leadsInc = 0 ∧
    (processPost keywords minScore scorer subreddit post).analyzedInc = 1 := by
  obtain ⟨pid, pt, ps, pa, pc, psc, pn, pp⟩ := post
  subst ht hc hp
  simp only [processPost]
  rw [if_pos hm]
  simp only [runScorer]
  rw [hs]
  rcases he with rfl | rfl
  · dsimp only
    exact ⟨⟨_, rfl, rfl, by simp [exploredShell], by simp [exploredShell], hm⟩,
      rfl, rfl, rfl⟩
  · dsimp only
    rw [if_pos rfl]
    exact ⟨⟨_, rfl, rfl, by simp [exploredShell], by simp [exploredShell], hm⟩,
      rfl, rfl, rfl⟩

/-- C9 witness: a concrete matched post with an empty-content scorer
response is analyzed but yields no lead and no recorded score. -/
theorem c9_empty_response_witness :
    (∃ pi, (processPost ["bi dashboard"] 7 scorerBlank "s" samplePost).record = some pi ∧
      pi.ai_analyzed = true ∧ pi.is_lead = false ∧ pi.ai_score = none ∧
      pi.matched_keywords = true) ∧
    (processPost ["bi dashboard"] 7 scorerBlank "s" samplePost).lead = none ∧
    (processPost ["bi dashboard"] 7 scorerBlank "s" samplePost).leadsInc = 0 ∧
    (processPost ["bi dashboard"] 7 scorerBlank "s" samplePost).analyzedInc = 1 :=
  c9_empty_response ["bi dashboard"] 7 scorerBlank "s" samplePost
    "Need a BI Dashboard" 100 "/r/x/1" (some "") rfl rfl rfl (by decide) rfl
    (Or.inr rfl)

/-- C7: score parsing takes the first line containing "Score:" and reads
its digit characters as the score — a response whose score line is
"Score: 8 (strong business signal)" parses to 8 whatever the threshold,
the first such line wins, and a response with no "Score:" label falls
back to `min_score`. -/
theorem c7_score_parsing :
    (∀ minScore : Nat,
      parseScore "Analysis summary\nScore: 8 (strong business signal)\nRecommendation: pursue"
        minScore = 8) ∧
    (∀ minScore : Nat,
      parseScore "Score: 8 (strong business signal)\nScore: 9 later" minScore = 8) ∧
    (∀ (text : String) (minScore : Nat),
      strContains text "Score:" = false → parseScore text minScore = minScore) := by
  refine ⟨fun minScore => rfl, fun minScore => rfl, fun text minScore h => ?_⟩
  simp [parseScore, h]

/-- C7 witness: the parsing facts instantiated at concrete thresholds and
a concrete label-free response. -/
theorem c7_score_parsing_witness :
    parseScore "Analysis summary\nScore: 8 (strong business signal)\nRecommendation: pursue" 3 = 8 ∧
    parseScore "no label here" 5 = 5 :=
  ⟨c7_score_parsing.1 3, c7_score_parsing.2.2 "no label here" 5 (by decide)⟩

/-- Ids of a `take` stay duplicate-free. -/
theorem take_ids_nodup (l : List Post) (n : Nat)
    (h : (l.map Post.id).Nodup) : ((l.take n).map Post.id).Nodup := by
  rw [List.map_take]
  exact List.Nodup.sublist (List.take_sublist _ _) h

/-- `dedupAppend` preserves id-uniqueness whenever the incoming batch is
itself id-unique. -/
theorem dedupAppend_ids_nodup (acc batch : List Post)
    (hacc : (acc.map Post.id).Nodup) (hbatch : (batch.map Post.id).Nodup) :
    ((dedupAppend acc batch).map Post.id).Nodup := by
  unfold dedupAppend
  rw [List.map_append, List.nodup_append]
  refine ⟨hacc, ?_, ?_⟩
  · exact List.Nodup.sublist (List.Sublist.map _ (List.filter_sublist _)) hbatch
  · intro a ha hb
    rw [List.mem_map] at hb
    obtain ⟨p, hp, hpa⟩ := hb
    rw [List.mem_filter] at hp
    have h2 := hp.2
    have hmem : (acc.map Post.id).contains p.id = true :=
      List.elem_iff.mpr (hpa ▸ ha)
    rw [hmem] at h2
    simp at h2

/-- The top stage keeps ids duplicate-free. -/
theorem collectTopStage_ids_nodup (api : SubredditAPI) (limit : Nat)
    (acc : List Post) (hacc : (acc.map Post.id).Nodup)
    (htop : (api.topListing.map Post.id).Nodup) :
    ((collectTopStage api limit acc).map Post.id).Nodup := by
  unfold collectTopStage
  split
  · exact hacc
  · exact dedupAppend_ids_nodup _ _ hacc (take_ids_nodup _ _ htop)

/-- The hot stage keeps ids duplicate-free. -/
theorem collectHotStage_ids_nodup (api : SubredditAPI) (limit : Nat)
    (acc : List Post) (hacc : (acc.map Post.id).Nodup)
    (hhot : (api.hotListing.map Post.id).Nodup) :
    ((collectHotStage api limit acc).map Post.id).Nodup := by
  unfold collectHotStage
  split
  · exact hacc
  · exact dedupAppend_ids_nodup _ _ hacc (take_ids_nodup _ _ hhot)

/-- C5 (amended): the Collector's output always has length at most the
cap — for every source, duplicate-containing listings included, because
of the final truncation at line 217 — and it has no duplicate identifiers
provided each individual ranking listing is itself duplicate-free:
cross-stage duplicates are filtered by the code, within-listing
uniqueness is inherited from the source. -/
theorem c5_collector_dedup_cap (api : SubredditAPI) (cap : Nat) :
    (collectPosts api cap).length ≤ cap ∧
    ((api.newListing.map Post.id).Nodup →
      (api.topListing.map Post.id).Nodup →
      (api.hotListing.map Post.id).Nodup →
      ((collectPosts api cap).map Post.id).Nodup) := by
  constructor
  · unfold collectPosts
    dsimp only
    rw [List.length_take]
    exact Nat.min_le_left _ _
  · intro hn htp hht
    unfold collectPosts
    dsimp only
    apply take_ids_nodup
    have haccN : ((if api.newFails = true then []
        else api.newListing.take (min cap 1000)).map Post.id).Nodup := by
      split
      · simp
      · exact take_ids_nodup _ _ hn
    by_cases h1 : 1000 < cap
    · rw [if_pos h1]
      generalize hg : (if api.newFails = true then []
          else api.newListing.take (min cap 1000)) = acc0 at haccN ⊢
      have hAfter := collectTopStage_ids_nodup api cap acc0 haccN htp
      split
      · exact collectHotStage_ids_nodup api cap _ hAfter hht
      · exact hAfter
    · rw [if_neg h1]
      exact haccN

/-- C5 counterexample: a source whose `new` listing itself repeats an id
(the code never deduplicates within a single listing) yields a collector
output with a duplicate identifier at the positive cap 2. -/
theorem c5_counterexample :
    (0 < 2) ∧ ¬ (((collectPosts apiDupNew 2).map Post.id).Nodup) := by
  decide

/-- C5 witness: the dedup conclusion on a duplicate-free source at cap
10, and the unconditional cap bound also on the duplicate-containing
source at cap 2. -/
theorem c5_collector_dedup_cap_witness :
    ((collectPosts (envSample "s") 10).map Post.id).Nodup ∧
    (collectPosts (envSample "s") 10).length ≤ 10 ∧
    (collectPosts apiDupNew 2).length ≤ 2 :=
  ⟨(c5_collector_dedup_cap (envSample "s") 10).2 (by decide) (by decide) (by decide),
   (c5_collector_dedup_cap (envSample "s") 10).1,
   (c5_collector_dedup_cap apiDupNew 2).1⟩

/-- Ids of numbered posts recover the underlying numbers. -/
theorem map_mkNatPost_ids (l : List Nat) :
    ((l.map mkNatPost).map Post.id) = l := by
  rw [List.map_map]
  have h : (Post.id ∘ mkNatPost) = id := rfl
  rw [h, List.map_id]

/-- `range n` contains every smaller number. -/
theorem range_contains_of_lt {n i : Nat} (h : i < n) :
    (List.range n).contains i = true :=
  List.elem_iff.mpr (List.mem_range.mpr h)

/-- `range n` contains no number at or above `n`. -/
theorem range_contains_eq_false {n i : Nat} (h : n ≤ i) :
    (List.range n).contains i = false := by
  cases hb : (List.range n).contains i
  · rfl
  · have := List.mem_range.mp (List.elem_iff.mp hb)
    omega

/-- Filtering numbered posts by containment in `range 1000` keeps exactly
those below 1000. -/
theorem filter_dup_keep (l : List Nat) (hall : ∀ i ∈ l, i < 1000) :
    ((l.map mkNatPost).filter (fun p => (List.range 1000).contains p.id))
      = l.map mkNatPost := by
  rw [List.filter_eq_self]
  intro a ha
  rw [List.mem_map] at ha
  obtain ⟨i, hi, rfl⟩ := ha
  exact range_contains_of_lt (hall i hi)

/-- Filtering numbered posts by containment in `range 1000` drops all
those at or above 1000. -/
theorem filter_dup_drop (l : List Nat) (hall : ∀ i ∈ l, 1000 ≤ i) :
    ((l.map mkNatPost).filter (fun p => (List.range 1000).contains p.id)) = [] := by
  rw [List.filter_eq_nil_iff]
  intro a ha
  rw [List.mem_map] at ha
  obtain ⟨i, hi, rfl⟩ := ha
  intro hcontra
  rw [show (mkNatPost i).id = i from rfl,
    range_contains_eq_false (hall i hi)] at hcontra
  exact Bool.false_ne_true hcontra

/-- Filtering numbered posts by NON-containment in `range 1000` keeps
exactly those at or above 1000. -/
theorem filter_fresh_keep (l : List Nat) (hall : ∀ i ∈ l, 1000 ≤ i) :
    ((l.map mkNatPost).filter (fun p => !((List.range 1000).contains p.id)))
      = l.map mkNatPost := by
  rw [List.filter_eq_self]
  intro a ha
  rw [List.mem_map] at ha
  obtain ⟨i, hi, rfl⟩ := ha
  rw [show (mkNatPost i).id = i from rfl, range_contains_eq_false (hall i hi)]
  rfl

/-- Filtering numbered posts by NON-containment in `range 1000` drops all
those below 1000. -/
theorem filter_fresh_drop (l : List Nat) (hall : ∀ i ∈ l, i < 1000) :
    ((l.map mkNatPost).filter (fun p => !((List.range 1000).contains p.id))) = [] := by
  rw [List.filter_eq_nil_iff]
  intro a ha
  rw [List.mem_map] at ha
  obtain ⟨i, hi, rfl⟩ := ha
  intro hcontra
  rw [show (mkNatPost i).id = i from rfl,
    range_contains_of_lt (hall i hi)] at hcontra
  exact Bool.false_ne_true hcontra

/-- The 500 top posts actually requested in the early-duplicates scenario:
the 300 duplicates followed by 200 fresh posts. -/
theorem c6TopEarlyDup_take :
    c6TopEarlyDup.take 500
      = (List.range 300).map mkNatPost ++ (List.range' 1000 200).map mkNatPost := by
  unfold c6TopEarlyDup
  rw [List.map_append, List.take_append_eq_append_take,
    List.take_of_length_le
      (show ((List.range 300).map mkNatPost).length ≤ 500 by simp),
    show ((List.range 300).map mkNatPost).length = 300 by simp,
    show (500 - 300 : Nat) = 200 from rfl, ← List.map_take,
    show List.range' 1000 500 = List.range' 1000 200 ++ List.range' 1200 300 from
      (List.range'_append_1 1000 200 300).symm,
    List.take_left' (show (List.range' 1000 200).length = 200 by simp)]

/-- Projection: the early-duplicates source's new stage never fails. -/
theorem c6ApiEarlyDup_newFails : c6ApiEarlyDup.newFails = false := by
  dsimp only [c6ApiEarlyDup]

/-- Projection: the early-duplicates source's top stage never fails. -/
theorem c6ApiEarlyDup_topFails : c6ApiEarlyDup.topFails = false := by
  dsimp only [c6ApiEarlyDup]

/-- Projection: the early-duplicates source's hot stage never fails. -/
theorem c6ApiEarlyDup_hotFails : c6ApiEarlyDup.hotFails = false := by
  dsimp only [c6ApiEarlyDup]

/-- Projection: the early-duplicates source's new listing. -/
theorem c6ApiEarlyDup_newListing : c6ApiEarlyDup.newListing = c6NewListing := by
  dsimp only [c6ApiEarlyDup]

/-- Projection: the early-duplicates source's top listing. -/
theorem c6ApiEarlyDup_topListing : c6ApiEarlyDup.topListing = c6TopEarlyDup := by
  dsimp only [c6ApiEarlyDup]

/-- Projection: the early-duplicates source's hot listing is empty. -/
theorem c6ApiEarlyDup_hotListing : c6ApiEarlyDup.hotListing = [] := by
  dsimp only [c6ApiEarlyDup]

/-- Projection: the late-duplicates source's new stage never fails. -/
theorem c6ApiLateDup_newFails : c6ApiLateDup.newFails = false := by
  dsimp only [c6ApiLateDup]

/-- Projection: the late-duplicates source's top stage never fails. -/
theorem c6ApiLateDup_topFails : c6ApiLateDup.topFails = false := by
  dsimp only [c6ApiLateDup]

/-- Projection: the late-duplicates source's hot stage never fails. -/
theorem c6ApiLateDup_hotFails : c6ApiLateDup.hotFails = false := by
  dsimp only [c6ApiLateDup]

/-- Projection: the late-duplicates source's new listing. -/
theorem c6ApiLateDup_newListing : c6ApiLateDup.newListing = c6NewListing := by
  dsimp only [c6ApiLateDup]

/-- Projection: the late-duplicates source's top listing. -/
theorem c6ApiLateDup_topListing : c6ApiLateDup.topListing = c6TopLateDup := by
  dsimp only [c6ApiLateDup]

/-- Projection: the late-duplicates source's hot listing is empty. -/
theorem c6ApiLateDup_hotListing : c6ApiLateDup.hotListing = [] := by
  dsimp only [c6ApiLateDup]

/-- Ids of the scenario's new posts. -/
theorem c6NewListing_ids : c6NewListing.map Post.id = List.range 1000 := by
  unfold c6NewListing
  exact map_mkNatPost_ids (List.range 1000)

/-- The scenario's new listing has 1000 posts. -/
theorem c6NewListing_length : c6NewListing.length = 1000 := by
  unfold c6NewListing
  rw [List.length_map, List.length_range]

/-- The early-duplicates top listing has 800 posts. -/
theorem c6TopEarlyDup_length : c6TopEarlyDup.length = 800 := by
  unfold c6TopEarlyDup
  rw [List.length_map, List.length_append, List.length_range, List.length_range']

/-- The late-duplicates top listing has 800 posts. -/
theorem c6TopLateDup_length : c6TopLateDup.length = 800 := by
  unfold c6TopLateDup
  rw [List.length_map, List.length_append, List.length_range, List.length_range']

/-- Taking 1000 posts from the 1000-post new listing is the identity. -/
theorem c6NewListing_take_1000 : c6NewListing.take 1000 = c6NewListing :=
  List.take_of_length_le (by simp [c6NewListing_length])

/-- Length of the early-duplicates collection result. -/
theorem c6_early_result_length :
    (c6NewListing ++ (List.range' 1000 200).map mkNatPost).length = 1200 := by
  rw [List.length_append, c6NewListing_length, List.length_map, List.length_range']

/-- Length of the late-duplicates collection result. -/
theorem c6_late_result_length :
    (c6NewListing ++ (List.range' 1000 500).map mkNatPost).length = 1500 := by
  rw [List.length_append, c6NewListing_length, List.length_map, List.length_range']

/-- Filtering the early-duplicates batch against the accumulated new posts
drops exactly the 300 duplicates. -/
theorem c6_filter_early :
    dedupAppend c6NewListing
        ((List.range 300).map mkNatPost ++ (List.range' 1000 200).map mkNatPost)
      = c6NewListing ++ (List.range' 1000 200).map mkNatPost := by
  unfold dedupAppend
  rw [c6NewListing_ids, List.filter_append,
    filter_fresh_drop (List.range 300)
      (fun i hi => by rw [List.mem_range] at hi; omega),
    filter_fresh_keep (List.range' 1000 200)
      (fun i hi => by
        rw [List.mem_range'] at hi
        obtain ⟨j, hj, rfl⟩ := hi
        omega),
    List.nil_append]

/-- Early-duplicates scenario: the collector returns the 1000 new posts
plus only 200 fresh top posts. -/
theorem c6_early_dup_run :
    collectPosts c6ApiEarlyDup 1500
      = c6NewListing ++ (List.range' 1000 200).map mkNatPost := by
  unfold collectPosts
  dsimp only
  rw [c6ApiEarlyDup_newFails, if_neg Bool.false_ne_true, c6ApiEarlyDup_newListing,
    if_pos (show (1000 : Nat) < 1500 by omega),
    show min (1500 : Nat) 1000 = 1000 from rfl, c6NewListing_take_1000]
  have htop : collectTopStage c6ApiEarlyDup 1500 c6NewListing
      = c6NewListing ++ (List.range' 1000 200).map mkNatPost := by
    unfold collectTopStage
    rw [c6ApiEarlyDup_topFails, if_neg Bool.false_ne_true,
      c6ApiEarlyDup_topListing, c6NewListing_length,
      show (1500 - 1000 : Nat) = 500 from rfl,
      show min (500 : Nat) 1000 = 500 from rfl,
      c6TopEarlyDup_take, c6_filter_early]
  rw [htop, c6_early_result_length, if_pos (show (1200 : Nat) < 1500 by omega)]
  have hhot : collectHotStage c6ApiEarlyDup 1500
      (c6NewListing ++ (List.range' 1000 200).map mkNatPost)
      = c6NewListing ++ (List.range' 1000 200).map mkNatPost := by
    unfold collectHotStage
    rw [c6ApiEarlyDup_hotFails, if_neg Bool.false_ne_true, c6ApiEarlyDup_hotListing]
    unfold dedupAppend
    rw [List.take_nil, List.filter_nil, List.append_nil]
  rw [hhot]
  exact List.take_of_length_le (by rw [c6_early_result_length]; omega)

/-- C6 counterexample: in the stated scenario (cap 1500, 1000 unique new
posts, a top listing of 800 posts of which 300 duplicate the new ones)
the final collected size is 1200 when the duplicates lie in the examined
window, not min(1500, 1000+500) = 1500. -/
theorem c6_counterexample :
    c6NewListing.length = 1000 ∧
    (c6NewListing.map Post.id).Nodup ∧
    c6TopEarlyDup.length = 800 ∧
    (c6TopEarlyDup.filter
      (fun p => (c6NewListing.map Post.id).contains p.id)).length = 300 ∧
    (collectPosts c6ApiEarlyDup 1500).length = 1200 ∧
    (collectPosts c6ApiEarlyDup 1500).length ≠ 1500 := by
  have hdup : (c6TopEarlyDup.filter
      (fun p => (c6NewListing.map Post.id).contains p.id)).length = 300 := by
    rw [c6NewListing_ids]
    unfold c6TopEarlyDup
    rw [List.map_append, List.filter_append,
      filter_dup_keep (List.range 300)
        (fun i hi => by rw [List.mem_range] at hi; omega),
      filter_dup_drop (List.range' 1000 500)
        (fun i hi => by
          rw [List.mem_range'] at hi
          obtain ⟨j, hj, rfl⟩ := hi
          omega),
      List.append_nil, List.length_map, List.length_range]
  have hrunlen : (collectPosts c6ApiEarlyDup 1500).length = 1200 := by
    rw [c6_early_dup_run, c6_early_result_length]
  refine ⟨c6NewListing_length, c6NewListing_ids.symm ▸ List.nodup_range 1000,
    c6TopEarlyDup_length, hdup, hrunlen, ?_⟩
  rw [hrunlen]
  omega

/-- The 500 top posts actually requested in the late-duplicates scenario
are all fresh. -/
theorem c6TopLateDup_take :
    c6TopLateDup.take 500 = (List.range' 1000 500).map mkNatPost := by
  unfold c6TopLateDup
  rw [List.map_append]
  exact List.take_left'
    (show ((List.range' 1000 500).map mkNatPost).length = 500 by simp)

/-- Filtering the late-duplicates batch drops nothing. -/
theorem c6_filter_late :
    dedupAppend c6NewListing ((List.range' 1000 500).map mkNatPost)
      = c6NewListing ++ (List.range' 1000 500).map mkNatPost := by
  unfold dedupAppend
  rw [c6NewListing_ids,
    filter_fresh_keep (List.range' 1000 500)
      (fun i hi => by
        rw [List.mem_range'] at hi
        obtain ⟨j, hj, rfl⟩ := hi
        omega)]

/-- Late-duplicates scenario: the collector reaches the full cap. -/
theorem c6_late_dup_run :
    collectPosts c6ApiLateDup 1500
      = c6NewListing ++ (List.range' 1000 500).map mkNatPost := by
  unfold collectPosts
  dsimp only
  rw [c6ApiLateDup_newFails, if_neg Bool.false_ne_true, c6ApiLateDup_newListing,
    if_pos (show (1000 : Nat) < 1500 by omega),
    show min (1500 : Nat) 1000 = 1000 from rfl, c6NewListing_take_1000]
  have htop : collectTopStage c6ApiLateDup 1500 c6NewListing
      = c6NewListing ++ (List.range' 1000 500).map mkNatPost := by
    unfold collectTopStage
    rw [c6ApiLateDup_topFails, if_neg Bool.false_ne_true,
      c6ApiLateDup_topListing, c6NewListing_length,
      show (1500 - 1000 : Nat) = 500 from rfl,
      show min (500 : Nat) 1000 = 500 from rfl,
      c6TopLateDup_take, c6_filter_late]
  rw [htop, c6_late_result_length, if_neg (show ¬ ((1500 : Nat) < 1500) by omega)]
  exact List.take_of_length_le (by rw [c6_late_result_length])

/-- C6 (amended): the code requests only min(cap − accumulated, 1000) =
500 top posts, so whether the run reaches the cap depends on where the
300 duplicates sit in the top listing: with the duplicates beyond the
examined 500-post window the final size is the full 1500. -/
theorem c6_collect_size_amended :
    c6TopLateDup.length = 800 ∧
    (c6TopLateDup.filter
      (fun p => (c6NewListing.map Post.id).contains p.id)).length = 300 ∧
    (collectPosts c6ApiLateDup 1500).length = 1500 := by
  refine ⟨c6TopLateDup_length, ?_, ?_⟩
  · rw [c6NewListing_ids]
    unfold c6TopLateDup
    rw [List.map_append, List.filter_append,
      filter_dup_drop (List.range' 1000 500)
        (fun i hi => by
          rw [List.mem_range'] at hi
          obtain ⟨j, hj, rfl⟩ := hi
          omega),
      filter_dup_keep (List.range 300)
        (fun i hi => by rw [List.mem_range] at hi; omega),
      List.nil_append, List.length_map, List.length_range]
  · rw [c6_late_dup_run, c6_late_result_length]

/-- C8: with a missing credential, an empty subreddit list or an empty
keyword list, the search handler reports an error to the caller, and its
result does not depend on the Reddit environment or the scorer — no
Collector query and no scorer call can influence (or be caused by) the
outcome, so the run never starts. -/
theorem c8_input_validation (creds : Credentials)
    (subreddits keywords : List String) (limit minScore : Nat)
    (env env2 : String → SubredditAPI) (scorer scorer2 : String → ScorerOutcome)
    (h : credsComplete creds = false ∨ subreddits = [] ∨ keywords = []) :
    (∃ msg, searchButtonHandler creds subreddits keywords limit minScore env scorer
      = Except.error msg) ∧
    searchButtonHandler creds subreddits keywords limit minScore env scorer
      = searchButtonHandler creds subreddits keywords limit minScore env2 scorer2 := by
  cases hcc : credsComplete creds with
  | false =>
    constructor
    · exact ⟨"Please fill in all API credentials!", by simp [searchButtonHandler, hcc]⟩
    · simp [searchButtonHandler, hcc]
  | true =>
    cases subreddits with
    | nil =>
      constructor
      · exact ⟨"Please enter at least one subreddit!", by simp [searchButtonHandler, hcc]⟩
      · simp [searchButtonHandler, hcc]
    | cons s ss =>
      cases keywords with
      | nil =>
        constructor
        · exact ⟨"Please enter at least one keyword!", by simp [searchButtonHandler, hcc]⟩
        · simp [searchButtonHandler, hcc]
      | cons k ks =>
        rcases h with hc | hs | hk
        · rw [hcc] at hc
          cases hc
        · cases hs
        · cases hk

/-- C8 witness: with the OpenAI key left empty the handler errors out and
its output is identical under two entirely different environments and
scorers. -/
theorem c8_input_validation_witness :
    (∃ msg, searchButtonHandler credsNoKey ["s"] ["bi"] 10 7 envSample scorerNine
      = Except.error msg) ∧
    searchButtonHandler credsNoKey ["s"] ["bi"] 10 7 envSample scorerNine
      = searchButtonHandler credsNoKey ["s"] ["bi"] 10 7 envEmpty scorerDown :=
  c8_input_validation credsNoKey ["s"] ["bi"] 10 7 envSample envEmpty
    scorerNine scorerDown (Or.inl (by decide))

end RLT
